import Mathlib

set_option maxRecDepth 16384

/-!
Shallow embedding of the two scripts of this repository and proofs of the
specification claims about them.

The streaming script (`gemini_streaming_parallel.py`) is embedded in the
`Gemini` namespace: the underlying network stream for a prompt is modelled as
the finite list of fragments the API delivers plus an optional error raised
afterwards, and the cooperative scheduler is modelled as a round-based drain of
the per-task event lists.

The review script (`criticize.py`) is embedded in the `Criticize` namespace:
each external effect (subprocess run, file read, API call) is a parameter of the
environment, and `main` is the literal translation of the script body.
-/

namespace Gemini

/-- Behaviour of one underlying streaming API call: the fragments it delivers
in order, and `error = some e` when the call (or the iteration over its
response) raises with description `e` after those fragments — `chunks = []`
with `error = some e` is a failure before the first fragment. -/
structure StreamOutcome where
  chunks : List String
  error : Option String
deriving DecidableEq

/-- Embedding of the `GeminiProcessor` object: its model name and the
environment-supplied behaviour of the underlying API for each prompt. -/
structure GeminiProcessor where
  model_name : String
  respond : String → StreamOutcome

/-- Embedding of `GeminiProcessor.stream_generate`: the `try` body yields each
delivered chunk; the `except` arm catches any raise and yields one final
fragment `"Error: " ++ e`, so the generator always terminates. -/
def GeminiProcessor.stream_generate (proc : GeminiProcessor) (prompt : String) :
    List String :=
  match (proc.respond prompt).error with
  | none => (proc.respond prompt).chunks
  | some e => (proc.respond prompt).chunks ++ ["Error: " ++ e]

/-- One write to standard output performed by `stream_and_print` for a task. -/
inductive Event where
  | header (index : Nat) (prompt : String)
  | fragment (index : Nat) (chunk : String)
  | footer (index : Nat)
deriving DecidableEq

/-- The task index an event is tagged with. -/
def Event.index : Event → Nat
  | .header i _ => i
  | .fragment i _ => i
  | .footer i => i

/-- The exact bytes each event writes: `print` appends a newline to the header
and footer, while a fragment is written with no added line break. -/
def Event.render : Event → String
  | .header i p => "--- Prompt " ++ toString (i + 1) ++ ": " ++ p ++ " ---\n"
  | .fragment i c => "Prompt " ++ toString (i + 1) ++ ": " ++ c
  | .footer i => "\n--- End of Prompt " ++ toString (i + 1) ++ " ---\n\n"

/-- Recogniser for the per-task completion marker. -/
def Event.isFooter : Event → Bool
  | .footer _ => true
  | _ => false

/-- Recogniser for a forwarded stream fragment. -/
def Event.isFragment : Event → Bool
  | .fragment _ _ => true
  | _ => false

/-- Embedding of `stream_and_print`: the header line, one write per fragment of
the stream, then the footer line. -/
def stream_and_print (proc : GeminiProcessor) (prompt : String) (index : Nat) :
    List Event :=
  Event.header index prompt ::
    ((proc.stream_generate prompt).map (Event.fragment index) ++
      [Event.footer index])

/-- Embedding of `parallel_generate`: `enumerate(prompts)` assigns each prompt
its position as index and one task is created per prompt. -/
def parallel_generate (proc : GeminiProcessor) (prompts : List String) :
    List (List Event) :=
  prompts.enum.map (fun ip => stream_and_print proc ip.2 ip.1)

/-- The indices assigned by the `enumerate(prompts)` comprehension. -/
def task_indices (prompts : List String) : List Nat :=
  prompts.enum.map (fun ip => ip.1)

/-- One cooperative round of the event loop: every task still holding pending
writes performs its next write and suspends again. -/
def roundStep (tasks : List (List Event)) : List (List Event) :=
  tasks.map List.tail

/-- Iterated rounds of the cooperative scheduler. -/
def runRounds : Nat → List (List Event) → List (List Event)
  | 0, tasks => tasks
  | n + 1, tasks => runRounds n (roundStep tasks)

/-- Number of rounds after which `asyncio.gather` has seen every task finish:
the longest pending event list. -/
def gatherRounds (tasks : List (List Event)) : Nat :=
  (tasks.map List.length).foldr max 0

/-- All tasks have reached a terminal state (no pending writes). -/
def allDone (tasks : List (List Event)) : Bool :=
  tasks.all List.isEmpty

/-- Result of constructing a `GeminiProcessor`: the diagnostics printed and
either the processor or the re-raised construction error. -/
structure InitResult where
  printed : List String
  result : Except String GeminiProcessor

/-- Embedding of `GeminiProcessor.__init__`: it stores the model name and
builds the client; when client construction raises, two diagnostics are
printed and the exception is re-raised. -/
def GeminiProcessor_init (model_name : String)
    (clientInit : Except String (String → StreamOutcome)) : InitResult :=
  match clientInit with
  | .ok respond =>
      { printed := [],
        result := .ok { model_name := model_name, respond := respond } }
  | .error e =>
      { printed :=
          ["Failed to initialize Gemini Client. Please make sure the \x60GEMINI_API_KEY\x60 environment variable is set.",
           "It\x27s like forgetting your keys before going on a road trip. Expect consequences."],
        result := .error e }

/-- The four hard-coded prompts of the streaming script. -/
def demo_prompts : List String :=
  ["Tell me a joke about a developer who is trying to center a div.",
   "Write a short story about a rubber duck who is having an existential crisis.",
   "Explain the meaning of life in one sentence, but make it sound like a threat.",
   "Write a passive-aggressive error message for a user who forgot to save their work."]

/-- A processor whose underlying call fails after delivering one fragment on
every prompt, used by the witnesses below. -/
def procBoom : GeminiProcessor :=
  { model_name := "gemini-1.5-flash",
    respond := fun _ => { chunks := ["half"], error := some "boom" } }

/-- A processor that succeeds on the prompt "alpha" and fails before the
first fragment on every other prompt, used by the witnesses below. -/
def procMixed : GeminiProcessor :=
  { model_name := "gemini-1.5-flash",
    respond := fun s =>
      if s = "alpha" then { chunks := ["ok"], error := none }
      else { chunks := [], error := some "dead" } }

/-- A processor that succeeds on every prompt and agrees with `procMixed` on
the prompt "alpha", used by the witnesses below. -/
def procFine : GeminiProcessor :=
  { model_name := "gemini-1.5-flash",
    respond := fun s =>
      if s = "alpha" then { chunks := ["ok"], error := none }
      else { chunks := ["fine"], error := none } }

/-- Observable result of running the streaming script end to end. -/
structure ScriptResult where
  printed : List String
  taskOutputs : List (List Event)
  uncaught : Option String

/-- Embedding of the streaming script's entry point under `asyncio.run`: the
processor is constructed first; a construction failure propagates out, so no
streaming task ever starts. -/
def streaming_main (clientInit : Except String (String → StreamOutcome)) :
    ScriptResult :=
  let ir := GeminiProcessor_init "gemini-1.5-flash" clientInit
  match ir.result with
  | .error e =>
      { printed := "Initializing Gemini Processor..." :: ir.printed,
        taskOutputs := [], uncaught := some e }
  | .ok proc =>
      { printed := "Initializing Gemini Processor..." :: ir.printed ++
          ["Starting parallel generation...",
           "All tasks are complete. Now go and do something useful with your life (or at least grab a coffee)."],
        taskOutputs := parallel_generate proc demo_prompts, uncaught := none }

end Gemini

namespace Criticize

/-- Python's substring test, the `in` operator on strings. -/
def strContains (s pat : String) : Bool :=
  decide (pat.toList <:+: s.toList)

/-- Python's truthiness chain `a or b` on strings: the empty string is falsy,
every other string is truthy and short-circuits. -/
def pyOr (a b : String) : String :=
  if a = "" then b else a

/-- Characters removed by Python's `str.strip()`. -/
def pyIsSpace (c : Char) : Bool :=
  c = ' ' || c = '\t' || c = '\n' || c = '\r' || c = '\x0b' || c = '\x0c'

/-- Python's `not s.strip()`: true when the string is empty or whitespace. -/
def pyStripIsEmpty (s : String) : Bool :=
  s.toList.all pyIsSpace

/-- Outcome of one `subprocess.run` invocation in this environment. -/
inductive CommandOutcome where
  | ran (returncode : Int) (stdout stderr : String)
  | notFound
  | unexpected (e : String)
deriving DecidableEq

/-- Embedding of `run_command`: captured output on exit status zero, an
error-describing string otherwise; a missing binary (FileNotFoundError) and
any other exception are also converted to strings, never re-raised. -/
def run_command (command : List String) (o : CommandOutcome) : String :=
  match o with
  | .ran rc out err =>
      if rc ≠ 0 then
        "Error running command \x27" ++ String.intercalate " " command ++
          "\x27:\n" ++ err
      else out
  | .notFound =>
      "Error: Command \x27" ++ command.headD "" ++
        "\x27 not found. Is it installed and in your PATH?"
  | .unexpected e => "An unexpected error occurred: " ++ e

/-- Outcome of opening and reading one file in this environment. -/
inductive ReadOutcome where
  | content (s : String)
  | notFound
  | unreadable (e : String)
deriving DecidableEq

/-- Embedding of `get_file_content`: the file's text, or a warning string when
the file is missing or unreadable — note the warnings are non-empty strings,
not a none-like value. -/
def get_file_content (file_path : String) (o : ReadOutcome) : String :=
  match o with
  | .content s => s
  | .notFound => "Warning: File not found: " ++ file_path
  | .unreadable e => "Warning: Could not read file " ++ file_path ++ ": " ++ e

/-- Everything external one run of `main` can observe. -/
structure Env where
  readme : ReadOutcome
  gemini : ReadOutcome
  diff : CommandOutcome
  log : CommandOutcome
  walk : List String
  api : Except String String

/-- Embedding of `get_staged_diff_with_context`. -/
def get_staged_diff_with_context (o : CommandOutcome) : String :=
  run_command ["git", "diff", "--staged", "-U10"] o

/-- Embedding of `get_git_log_subjects`. -/
def get_git_log_subjects (o : CommandOutcome) : String :=
  run_command ["git", "log", "-n", "15", "--pretty=format:\"%s\""] o

/-- Embedding of `get_file_tree`: the pruned walk joined with newlines. -/
def get_file_tree (env : Env) : String :=
  String.intercalate "\n" env.walk

/-- Embedding of line 96 of the script: the overview slot value, built with
Python `or` over the two candidate reads and the placeholder literal. -/
def readme_content (env : Env) : String :=
  pyOr (pyOr (get_file_content "README.md" env.readme)
      (get_file_content "GEMINI.md" env.gemini))
    "No overview document found."

/-- Embedding of `get_ai_criticism`: the response text on success, an
error-describing string on any exception — nothing is re-raised. -/
def get_ai_criticism (call : Except String String) : String :=
  match call with
  | .ok response => response
  | .error e =>
      "An error occurred while communicating with the Gemini API: " ++ e

/-- Message printed when the diff is empty, whitespace, or contains the
substring "Error". -/
def noStagedMsg : String :=
  "No staged changes found or error retrieving diff. Add files with \x27git add\x27 before running."

/-- Message printed to stderr when the diff mentions "not a git repository". -/
def notRepoMsg : String :=
  "Error: This script must be run within a Git repository."

/-- The 80-character banner line of the report. -/
def bannerLine : String :=
  String.mk (List.replicate 80 '=')

/-- Fixed template text before the overview slot. -/
def tmpl_pre : String :=
  "\nYou are a world-class senior software engineer and code reviewer. Your task is to provide a thorough, constructive, and actionable critique of the code changes provided below. Your analysis must be based on the complete context provided: the project\x27s purpose, its recent history, its file structure, and the specific changes being introduced.\n\n**CRITICAL INSTRUCTIONS:**\n1.  **Analyze Holistically:** Do not just look at the changed lines. Evaluate how they fit into the overall project.\n2.  **Adhere to Conventions:** Check if the changes align with the style and patterns from the project\x27s recent commit history.\n3.  **Identify Risks:** Look for potential bugs, security vulnerabilities, and anti-patterns.\n4.  **Be Constructive:** Your goal is to help the developer improve the code. Frame your feedback positively.\n5.  **Output Format:** Provide your response in Markdown with the specified structure: \"Overall Assessment\", \"Code Quality Score\", \"Positive Feedback\", and \"Areas for Improvement\".\n\n**CONTEXT PROVIDED:**\n\n---\n**1. Project Overview (from README.md/GEMINI.md):**\n"

/-- Fixed template text between the overview and commit-history slots. -/
def tmpl_mid1 : String :=
  "\n---\n**2. Recent Commit History (last 15 commits):**\n"

/-- Fixed template text between the commit-history and file-tree slots. -/
def tmpl_mid2 : String :=
  "\n---\n**3. Project File Tree:**\n"

/-- Fixed template text between the file-tree and diff slots. -/
def tmpl_mid3 : String :=
  "\n---\n**4. Staged Git Diff (with 10 lines of context):**\n"

/-- Fixed template text after the diff slot. -/
def tmpl_post : String :=
  "\n---\n\n**YOUR TASK:**\nBased on all the context above, provide a detailed code review in the following Markdown format:\n\n# AI Code Criticism Report\n\n## 1. Overall Assessment\n(A one-paragraph summary of the change.)\n\n## 2. Code Quality Score\n- **Clarity & Readability:** [Score 1-10]\n- **Correctness & Robustness:** [Score 1-10]\n- **Style & Consistency:** [Score 1-10]\n\n## 3. Positive Feedback\n* (Point 1)\n* (Point 2)\n\n## 4. Areas for Improvement\n*   **File:** \x60path/to/file.py\x60\n    *   **Line:** (approximate line number)\n    *   **Concern:** (Description of the issue)\n    *   **Suggestion:** (How to fix it)\n"

/-- Embedding of the master-prompt f-string of `main`. -/
def system_prompt (readme git_log file_tree staged_diff : String) : String :=
  tmpl_pre ++ readme ++ tmpl_mid1 ++ git_log ++ tmpl_mid2 ++ file_tree ++
    tmpl_mid3 ++ staged_diff ++ tmpl_post

/-- Observable result of one call of `main`. -/
structure MainResult where
  stdout : List String
  stderr : List String
  exitCode : Nat
  apiCalled : Bool
  prompt : Option String

/-- Embedding of `main`: context gathering, the repository guard, the
no-staged-changes guard, and the report path, recording standard output and
error, exit status, whether the generation API was called, and the prompt
sent to it. -/
def main (env : Env) : MainResult :=
  let rc := readme_content env
  let git_log_content := get_git_log_subjects env.log
  let file_tree_content := get_file_tree env
  let staged_diff_content := get_staged_diff_with_context env.diff
  let pre := ["--- Running AI Criticism Agent (Phase 1) ---",
    "Gathering project context..."]
  if strContains staged_diff_content "not a git repository" then
    { stdout := pre, stderr := [notRepoMsg], exitCode := 1,
      apiCalled := false, prompt := none }
  else if pyStripIsEmpty staged_diff_content ||
      strContains staged_diff_content "Error" then
    { stdout := pre ++ [noStagedMsg], stderr := [], exitCode := 0,
      apiCalled := false, prompt := none }
  else
    let sp := system_prompt rc git_log_content file_tree_content
      staged_diff_content
    let ai_response := get_ai_criticism env.api
    { stdout := pre ++
        ["Generating AI criticism... (this may take a moment)",
         "\n" ++ bannerLine,
         "                 AI Code Criticism Report",
         bannerLine ++ "\n",
         ai_response,
         "\n" ++ bannerLine],
      stderr := [], exitCode := 0, apiCalled := true, prompt := some sp }

/-- Modelled from the spec, for comparison with the code path: the contract
`readOptionalDoc` of section 4.2 returns the content of the first existing,
readable candidate file, or none. -/
def readOptionalDoc_spec (env : Env) : Option String :=
  match env.readme with
  | .content s => some s
  | _ =>
      match env.gemini with
      | .content s => some s
      | _ => none

/-- Python's string prefix test, stated on the character lists. -/
def strStartsWith (s pre : String) : Bool :=
  decide (pre.toList <+: s.toList)

/-- Helper of `splitLines`: accumulates the current line in reverse. -/
def splitLinesAux : List Char → List Char → List String
  | [], acc => [String.mk acc.reverse]
  | c :: cs, acc =>
      if c = '\n' then String.mk acc.reverse :: splitLinesAux cs []
      else splitLinesAux cs (c :: acc)

/-- Splitting a text into lines at each newline character. -/
def splitLines (s : String) : List String :=
  splitLinesAux s.toList []

/-- Modelled from the spec: strips the conventional a/ and b/ diff-path
prefixes, as the scenarios of section 8 require. -/
def stripSide (p : String) : String :=
  if strStartsWith p "a/" || strStartsWith p "b/" then p.drop 2 else p

/-- Modelled from the spec: no `ChangeSetExtractor` exists under src/; section
4.3 describes a line-oriented scan where a line beginning with the
three-character old-file marker or new-file marker followed by a path
contributes that path unless it is the null-device sentinel. -/
def markerPath (line : String) : Option String :=
  if strStartsWith line "--- " || strStartsWith line "+++ " then
    let p := line.drop 4
    if p = "/dev/null" then none else some (stripSide p)
  else none

/-- Modelled from the spec: `ChangeSetExtractor.extract` accumulates the
marker paths of the scanned lines into a set, skipping every other line. -/
def extract_lines (lines : List String) : Finset String :=
  lines.foldl
    (fun acc line =>
      match markerPath line with
      | some p => insert p acc
      | none => acc)
    ∅

/-- Modelled from the spec: `extract` on a whole diff text scans it line by
line. -/
def extract (diff : String) : Finset String :=
  extract_lines (splitLines diff)

/-- Observable result of running `criticize.py` as a process. -/
structure ProcessResult where
  exitCode : Nat
  uncaught : Option String
  mainRan : Bool
  apiCalled : Bool

/-- Embedding of running `criticize.py` as a script: the module body
constructs the API client at line 10, before the main guard calls `main`; an
exception there aborts the process with a traceback and non-zero status, and
`main` never runs. -/
def criticize_process (clientInit : Except String Unit) (env : Env) :
    ProcessResult :=
  match clientInit with
  | .error e =>
      { exitCode := 1, uncaught := some e, mainRan := false,
        apiCalled := false }
  | .ok _ =>
      let r := main env
      { exitCode := r.exitCode, uncaught := none, mainRan := true,
        apiCalled := r.apiCalled }

/-- Environment in which the git binary is absent: every subprocess raises
FileNotFoundError and no document is readable. -/
def envToolMissing : Env :=
  { readme := .notFound, gemini := .notFound, diff := .notFound,
    log := .notFound, walk := [], api := .error "unused" }

/-- Environment in which git runs but reports a fatal repository error on the
diff invocation. -/
def envRepoError : Env :=
  { readme := .notFound, gemini := .notFound,
    diff := .ran 128 "" "fatal: not a git repository", log := .notFound,
    walk := [], api := .error "unused" }

/-- Environment in which README.md is missing while GEMINI.md exists and is
readable with content "hello". -/
def envOverview : Env :=
  { readme := .notFound, gemini := .content "hello", diff := .ran 0 "x" "",
    log := .ran 0 "" "", walk := [], api := .ok "ok" }

/-- Environment in which neither overview candidate exists. -/
def envNoDocs : Env :=
  { readme := .notFound, gemini := .notFound, diff := .ran 0 "x" "",
    log := .ran 0 "" "", walk := [], api := .ok "ok" }

end Criticize

namespace Gemini

theorem runRounds_eq_drop (n : Nat) (tasks : List (List Event)) :
    runRounds n tasks = tasks.map (fun l => l.drop n) := by
  induction n generalizing tasks with
  | zero => simp [runRounds]
  | succ k ih =>
      rw [runRounds, roundStep, ih, List.map_map]
      refine List.map_congr_left fun l _ => ?_
      simp [Function.comp, ← List.drop_one, List.drop_drop, Nat.add_comm]

theorem length_le_gatherRounds (tasks : List (List Event)) (l : List Event)
    (h : l ∈ tasks) : l.length ≤ gatherRounds tasks := by
  induction tasks with
  | nil => simp at h
  | cons t ts ih =>
      rw [List.mem_cons] at h
      rcases h with h | h
      · subst h
        simp [gatherRounds]
      · exact le_trans (ih h) (by simp [gatherRounds])

/-- C1: when the underlying streaming API call fails before the first
fragment or mid-stream, `stream_generate` still terminates cleanly: the
yielded sequence is the fragments delivered so far followed by exactly one
synthetic fragment "Error: <description>" as its final element, and nothing
is raised out of the iteration protocol (the embedding is a total function
into finite lists). -/
theorem stream_generate_failure_terminates (proc : GeminiProcessor)
    (prompt e : String) (h : (proc.respond prompt).error = some e) :
    proc.stream_generate prompt =
      (proc.respond prompt).chunks ++ ["Error: " ++ e] ∧
    (proc.stream_generate prompt).getLast? = some ("Error: " ++ e) ∧
    (proc.stream_generate prompt).length =
      (proc.respond prompt).chunks.length + 1 := by
  unfold GeminiProcessor.stream_generate
  rw [h]
  exact ⟨rfl, List.getLast?_concat _, by simp⟩

/-- Witness for C1 at a processor that fails mid-stream after one fragment. -/
theorem stream_generate_failure_terminates_witness :
    (procBoom.respond "hi").error = some "boom" ∧
    procBoom.stream_generate "hi" =
      (procBoom.respond "hi").chunks ++ ["Error: " ++ "boom"] ∧
    (procBoom.stream_generate "hi").getLast? = some ("Error: " ++ "boom") ∧
    (procBoom.stream_generate "hi").length =
      (procBoom.respond "hi").chunks.length + 1 :=
  ⟨rfl, stream_generate_failure_terminates procBoom "hi" "boom" rfl⟩

/-- C6: the indices assigned to the streaming tasks are exactly the
contiguous 0-based range of the prompt-list length, with no duplicates and
no gaps, each task's index equal to its prompt's position; every event a
task emits is tagged with that same index, and the index assignment is made
at task creation, before any completion order exists. -/
theorem task_indices_contiguous (proc : GeminiProcessor)
    (prompts : List String) (i : Nat) (p : String)
    (h : prompts[i]? = some p) :
    task_indices prompts = List.range prompts.length ∧
    (task_indices prompts).Nodup ∧
    (parallel_generate proc prompts).length = prompts.length ∧
    (task_indices prompts)[i]? = some i ∧
    (parallel_generate proc prompts)[i]? =
      some (stream_and_print proc p i) ∧
    (∀ ev ∈ stream_and_print proc p i, ev.index = i) := by
  have hlt : i < prompts.length := (List.getElem?_eq_some.1 h).1
  have hrange : task_indices prompts = List.range prompts.length := by
    rw [task_indices]
    exact List.enum_map_fst prompts
  refine ⟨hrange, by rw [hrange]; exact List.nodup_range _,
    by simp [parallel_generate], ?_, ?_, ?_⟩
  · rw [hrange]
    exact List.getElem?_range hlt
  · simp [parallel_generate, List.getElem?_map, List.getElem?_enum, h]
  · intro ev hev
    simp only [stream_and_print, List.mem_cons, List.mem_append,
      List.mem_map, List.not_mem_nil, or_false] at hev
    rcases hev with h1 | ⟨c, _, h1⟩ | h1 <;> subst h1 <;> rfl

/-- Witness for C6 on a two-prompt list at index 1. -/
theorem task_indices_contiguous_witness :
    (["alpha", "beta"] : List String)[1]? = some "beta" ∧
    task_indices ["alpha", "beta"] = List.range 2 ∧
    (task_indices ["alpha", "beta"]).Nodup ∧
    (parallel_generate procMixed ["alpha", "beta"]).length = 2 ∧
    (task_indices ["alpha", "beta"])[1]? = some 1 ∧
    (parallel_generate procMixed ["alpha", "beta"])[1]? =
      some (stream_and_print procMixed "beta" 1) ∧
    (∀ ev ∈ stream_and_print procMixed "beta" 1, ev.index = 1) :=
  ⟨rfl, task_indices_contiguous procMixed ["alpha", "beta"] 1 "beta" rfl⟩

/-- C7: every fragment is written as its own unbuffered event, rendered as
the stable label "Prompt (index+1): " directly followed by the fragment text
with no added line break; the fragment events of a task are exactly its
stream's fragments in order; each task's output contains exactly one
completion marker, so a run over N prompts produces exactly N completion
markers even when some underlying streams fail mid-stream. -/
theorem printer_fragments_and_markers (proc : GeminiProcessor)
    (prompt : String) (i : Nat) (c : String) (prompts : List String) :
    Event.render (Event.fragment i c) =
      "Prompt " ++ toString (i + 1) ++ ": " ++ c ∧
    (stream_and_print proc prompt i).filter Event.isFragment =
      (proc.stream_generate prompt).map (Event.fragment i) ∧
    (stream_and_print proc prompt i).filter Event.isFooter =
      [Event.footer i] ∧
    ((parallel_generate proc prompts).map
        (fun t => (t.filter Event.isFooter).length)).sum =
      prompts.length := by
  refine ⟨rfl, ?_, ?_, ?_⟩
  · simp [stream_and_print, List.filter_append, List.filter_map,
      Event.isFragment, Function.comp, List.filter_eq_self.2]
  · simp [stream_and_print, List.filter_append, List.filter_map,
      Event.isFooter, Function.comp]
  · have hone : ∀ q j, ((stream_and_print proc q j).filter
        Event.isFooter).length = 1 := by
      intro q j
      simp [stream_and_print, List.filter_append, List.filter_map,
        Event.isFooter, Function.comp]
    have : ((parallel_generate proc prompts).map
        (fun t => (t.filter Event.isFooter).length)) =
        List.replicate prompts.length 1 := by
      rw [List.eq_replicate_iff]
      refine ⟨by simp [parallel_generate], ?_⟩
      intro b hb
      rcases List.mem_map.1 hb with ⟨t, ht, hbt⟩
      simp only [parallel_generate, List.mem_map] at ht
      rcases ht with ⟨ip, _, hip⟩
      rw [← hbt, ← hip, hone]
    rw [this]
    simp [List.sum_replicate]

/-- C2: the coordinator starts one streaming task per prompt; the cooperative
round scheduler reaches the state where every task is terminal after finitely
many rounds (so `gather` returns only after all N tasks finish); with zero
prompts there are zero tasks and zero rounds; a task's entire output is
determined by the API behaviour on its own prompt alone, so a sibling's
failure cannot cancel or affect it; and every task ends with its terminal
footer event even when its stream fails. -/
theorem parallel_generate_waits_for_all (proc proc2 : GeminiProcessor)
    (prompts : List String) (i : Nat) (prompt : String)
    (hsame : proc.respond prompt = proc2.respond prompt) :
    allDone (runRounds (gatherRounds (parallel_generate proc prompts))
        (parallel_generate proc prompts)) = true ∧
    (parallel_generate proc prompts).length = prompts.length ∧
    parallel_generate proc [] = [] ∧
    gatherRounds (parallel_generate proc []) = 0 ∧
    stream_and_print proc prompt i = stream_and_print proc2 prompt i ∧
    (stream_and_print proc prompt i).getLast? = some (Event.footer i) := by
  refine ⟨?_, by simp [parallel_generate], by simp [parallel_generate],
    by simp [parallel_generate, gatherRounds], ?_, ?_⟩
  · rw [runRounds_eq_drop, allDone, List.all_eq_true]
    intro x hx
    rcases List.mem_map.1 hx with ⟨l, hl, hlx⟩
    have hle := length_le_gatherRounds _ l hl
    rw [← hlx, List.isEmpty_iff, List.drop_eq_nil_iff]
    exact hle
  · unfold stream_and_print GeminiProcessor.stream_generate
    rw [hsame]
  · rw [stream_and_print, ← List.cons_append]
    exact List.getLast?_concat _

/-- Witness for C2: two processors agreeing on the prompt "alpha", one of
which fails on every sibling prompt, run over a two-prompt list. -/
theorem parallel_generate_waits_for_all_witness :
    procMixed.respond "alpha" = procFine.respond "alpha" ∧
    allDone (runRounds
        (gatherRounds (parallel_generate procMixed ["alpha", "beta"]))
        (parallel_generate procMixed ["alpha", "beta"])) = true ∧
    (parallel_generate procMixed ["alpha", "beta"]).length = 2 ∧
    parallel_generate procMixed [] = [] ∧
    gatherRounds (parallel_generate procMixed []) = 0 ∧
    stream_and_print procMixed "alpha" 0 =
      stream_and_print procFine "alpha" 0 ∧
    (stream_and_print procMixed "alpha" 0).getLast? =
      some (Event.footer 0) :=
  ⟨by decide,
    parallel_generate_waits_for_all procMixed procFine ["alpha", "beta"] 0
      "alpha" (by decide)⟩

end Gemini

namespace Criticize

theorem strContains_append_middle (a b c : String) :
    strContains (a ++ b ++ c) b = true := by
  unfold strContains
  rw [decide_eq_true_eq]
  refine ⟨a.toList, c.toList, ?_⟩
  simp [String.data_append]

theorem strContains_append_right (a b : String) :
    strContains (a ++ b) b = true := by
  unfold strContains
  rw [decide_eq_true_eq]
  refine ⟨a.toList, [], ?_⟩
  simp [String.data_append]

/-- C3 amended: when the git binary is absent, `run_command` converts the
FileNotFoundError to an "Error: ..." string, so `main` prints the generic
no-staged-changes message on standard output and returns with exit status 0
— not a non-zero exit — and no generation-API call is attempted. -/
theorem tool_missing_no_api_exit_zero (env : Env)
    (h : env.diff = CommandOutcome.notFound) :
    (main env).exitCode = 0 ∧ (main env).apiCalled = false ∧
    noStagedMsg ∈ (main env).stdout ∧
    get_staged_diff_with_context env.diff =
      "Error: Command \x27git\x27 not found. Is it installed and in your PATH?" := by
  have h1 : strContains (get_staged_diff_with_context env.diff)
      "not a git repository" = false := by rw [h]; decide
  have h2 : pyStripIsEmpty (get_staged_diff_with_context env.diff) =
      false := by rw [h]; decide
  have h3 : strContains (get_staged_diff_with_context env.diff) "Error" =
      true := by rw [h]; decide
  refine ⟨?_, ?_, ?_, by rw [h]; rfl⟩ <;> simp [main, h1, h2, h3]

/-- Witness for the amended C3 in the concrete tool-missing environment. -/
theorem tool_missing_no_api_exit_zero_witness :
    envToolMissing.diff = CommandOutcome.notFound ∧
    ((main envToolMissing).exitCode = 0 ∧
      (main envToolMissing).apiCalled = false ∧
      noStagedMsg ∈ (main envToolMissing).stdout ∧
      get_staged_diff_with_context envToolMissing.diff =
        "Error: Command \x27git\x27 not found. Is it installed and in your PATH?") :=
  ⟨rfl, tool_missing_no_api_exit_zero envToolMissing rfl⟩

/-- C3 counterexample: with the git binary absent, the script exits with
status 0 and prints only the generic message — there is no non-zero exit and
no ToolUnavailable-tagged message, refuting the claimed behaviour. -/
theorem tool_missing_cex :
    (main envToolMissing).exitCode = 0 ∧
    (main envToolMissing).stderr = [] ∧
    (main envToolMissing).stdout =
      ["--- Running AI Criticism Agent (Phase 1) ---",
       "Gathering project context...", noStagedMsg] ∧
    (main envToolMissing).apiCalled = false := by
  decide

/-- C5 amended: the no-staged-changes branch (message printed, exit status 0,
no API call) is taken exactly when the staged-diff text does not contain
"not a git repository" and is empty, whitespace-only, or contains the
substring "Error" anywhere; a diff containing "not a git repository" is
instead rejected with exit status 1 before the emptiness check. -/
theorem no_staged_branch_iff (env : Env) :
    (noStagedMsg ∈ (main env).stdout ∧ (main env).exitCode = 0 ∧
        (main env).apiCalled = false) ↔
      (strContains (get_staged_diff_with_context env.diff)
          "not a git repository" = false ∧
        (pyStripIsEmpty (get_staged_diff_with_context env.diff) = true ∨
          strContains (get_staged_diff_with_context env.diff) "Error" =
            true)) := by
  by_cases h1 : strContains (get_staged_diff_with_context env.diff)
      "not a git repository"
  · simp [main, h1]
  · by_cases h2 : pyStripIsEmpty (get_staged_diff_with_context env.diff)
    · simp [main, h1, h2]
    · by_cases h3 : strContains (get_staged_diff_with_context env.diff)
          "Error"
      · simp [main, h1, h2, h3]
      · simp [main, h1, h2, h3]

/-- C5 counterexample: a staged-diff text that contains "Error" but also
contains "not a git repository" makes `main` exit with status 1 without
printing the no-staged-changes message, refuting the claimed "exactly
when". -/
theorem error_substring_cex :
    strContains (get_staged_diff_with_context envRepoError.diff) "Error" =
      true ∧
    (main envRepoError).exitCode = 1 ∧
    (main envRepoError).apiCalled = false ∧
    noStagedMsg ∉ (main envRepoError).stdout := by
  decide

/-- C4 amended: the overview slot receives the README.md read result whenever
that result is a non-empty string — including the "Warning: File not found:"
string produced for a missing README.md, so GEMINI.md is consulted only when
the README read yields the empty string — and the fixed placeholder appears
only when both reads yield empty strings; the built prompt always contains
the slot value. -/
theorem overview_fallback_behavior (env : Env) (g f d : String) :
    (get_file_content "README.md" env.readme ≠ "" →
      readme_content env = get_file_content "README.md" env.readme) ∧
    (env.readme = ReadOutcome.notFound →
      readme_content env = "Warning: File not found: README.md") ∧
    (get_file_content "README.md" env.readme = "" →
      get_file_content "GEMINI.md" env.gemini ≠ "" →
      readme_content env = get_file_content "GEMINI.md" env.gemini) ∧
    (get_file_content "README.md" env.readme = "" →
      get_file_content "GEMINI.md" env.gemini = "" →
      readme_content env = "No overview document found.") ∧
    strContains (system_prompt (readme_content env) g f d)
      (readme_content env) = true := by
  have hfirst : get_file_content "README.md" env.readme ≠ "" →
      readme_content env = get_file_content "README.md" env.readme := by
    intro hr
    simp [readme_content, pyOr, hr]
  refine ⟨hfirst, ?_, ?_, ?_, ?_⟩
  · intro hr
    have hR : get_file_content "README.md" env.readme =
        "Warning: File not found: README.md" := by rw [hr]; rfl
    rw [hfirst (by rw [hR]; decide), hR]
  · intro hr hg
    simp [readme_content, pyOr, hr, hg]
  · intro hr hg
    simp [readme_content, pyOr, hr, hg]
  · have hsplit : system_prompt (readme_content env) g f d =
        tmpl_pre ++ readme_content env ++
          (tmpl_mid1 ++ g ++ tmpl_mid2 ++ f ++ tmpl_mid3 ++ d ++
            tmpl_post) := by
      simp [system_prompt, String.append_assoc]
    rw [hsplit]
    exact strContains_append_middle _ _ _

/-- Witness for the amended C4 in the environment with both candidate
documents missing. -/
theorem overview_fallback_behavior_witness :
    envNoDocs.readme = ReadOutcome.notFound ∧
    readme_content envNoDocs = "Warning: File not found: README.md" :=
  ⟨rfl, (overview_fallback_behavior envNoDocs "" "" "x").2.1 rfl⟩

/-- C4 counterexample: with README.md missing and GEMINI.md readable with
content "hello", the first existing readable candidate is GEMINI.md, yet the
overview slot receives the README warning string; and with no candidate
existing the slot receives the warning string, not the fixed placeholder. -/
theorem overview_cex :
    readOptionalDoc_spec envOverview = some "hello" ∧
    readme_content envOverview = "Warning: File not found: README.md" ∧
    readme_content envOverview ≠ "hello" ∧
    readme_content envNoDocs = "Warning: File not found: README.md" ∧
    readme_content envNoDocs ≠ "No overview document found." := by
  decide

theorem extract_lines_go (lines : List String) (acc : Finset String) :
    lines.foldl
      (fun acc line =>
        match markerPath line with
        | some p => insert p acc
        | none => acc) acc =
    acc ∪ (lines.filterMap markerPath).toFinset := by
  induction lines generalizing acc with
  | nil => simp
  | cons l ls ih =>
      cases h : markerPath l with
      | none => simp [List.foldl_cons, h, ih, List.filterMap_cons]
      | some p =>
          simp [List.foldl_cons, h, ih, List.filterMap_cons,
            Finset.insert_union, Finset.union_insert]

theorem toFinset_perm_eq {l1 l2 : List String} (h : l1.Perm l2) :
    l1.toFinset = l2.toFinset := by
  ext a
  simp [List.mem_toFinset, h.mem_iff]

/-- C8: `extract` returns exactly the set of marker paths — each non-null-
device path exactly once (set semantics), independent of line order — the
empty set for marker-free texts, and the two specified scenario diffs yield
the singleton sets of their stripped paths. -/
theorem extract_exact_set (lines lines2 : List String)
    (hperm : lines.Perm lines2) :
    extract_lines lines = (lines.filterMap markerPath).toFinset ∧
    extract_lines lines = extract_lines lines2 ∧
    ((∀ l ∈ lines, markerPath l = none) → extract_lines lines = ∅) ∧
    extract "--- a/x.py\n+++ b/x.py\n@@ ...\n" = {"x.py"} ∧
    extract "--- /dev/null\n+++ b/new.py\n" = {"new.py"} := by
  have key : ∀ ls : List String,
      extract_lines ls = (ls.filterMap markerPath).toFinset := by
    intro ls
    unfold extract_lines
    rw [extract_lines_go]
    simp
  refine ⟨key lines, ?_, ?_, by with_unfolding_all rfl,
    by with_unfolding_all rfl⟩
  · rw [key lines, key lines2]
    exact toFinset_perm_eq (hperm.filterMap markerPath)
  · intro hz
    rw [key lines, List.filterMap_eq_nil_iff.2 hz]
    rfl

/-- Witness for C8 on a concrete two-line diff and a permutation of it. -/
theorem extract_exact_set_witness :
    (["+++ b/x.py", "@@ junk"] : List String).Perm
      ["@@ junk", "+++ b/x.py"] ∧
    extract_lines ["+++ b/x.py", "@@ junk"] =
      ((["+++ b/x.py", "@@ junk"] : List String).filterMap
          markerPath).toFinset ∧
    extract_lines ["+++ b/x.py", "@@ junk"] =
      extract_lines ["@@ junk", "+++ b/x.py"] :=
  have h := extract_exact_set ["+++ b/x.py", "@@ junk"]
    ["@@ junk", "+++ b/x.py"] (by decide)
  ⟨by decide, h.1, h.2.1⟩

/-- C9: the non-streaming review call never lets an exception escape: for
every API outcome it returns a plain string — the response text on success,
and on failure a string that describes the error (the fixed prefix followed
by, and containing, the error description). -/
theorem get_ai_criticism_never_raises (call : Except String String) :
    (∃ t, call = Except.ok t ∧ get_ai_criticism call = t) ∨
    (∃ e, call = Except.error e ∧
      get_ai_criticism call =
        "An error occurred while communicating with the Gemini API: " ++
          e ∧
      strContains (get_ai_criticism call) e = true) := by
  cases call with
  | ok t => exact Or.inl ⟨t, rfl, rfl⟩
  | error e =>
      refine Or.inr ⟨e, rfl, rfl, ?_⟩
      exact strContains_append_right
        "An error occurred while communicating with the Gemini API: " e

end Criticize

/-- C10: if client construction fails because the credential is absent, both
entry points fail at startup with a visible error before any review or
streaming work: the review script constructs its client at module load, so
`main` never runs and no API call happens, and the process exits non-zero
with the uncaught exception; the streaming script's constructor prints its
diagnostics and re-raises, so the entry point propagates the failure with
zero streaming tasks started. -/
theorem missing_credential_fails_at_startup
    (ci1 : Except String Unit)
    (ci2 : Except String (String → Gemini.StreamOutcome))
    (env : Criticize.Env) (e1 e2 : String)
    (h1 : ci1 = Except.error e1) (h2 : ci2 = Except.error e2) :
    (Criticize.criticize_process ci1 env).mainRan = false ∧
    (Criticize.criticize_process ci1 env).apiCalled = false ∧
    (Criticize.criticize_process ci1 env).exitCode = 1 ∧
    (Criticize.criticize_process ci1 env).uncaught = some e1 ∧
    (Gemini.GeminiProcessor_init "gemini-1.5-flash" ci2).result =
      Except.error e2 ∧
    (Gemini.GeminiProcessor_init "gemini-1.5-flash" ci2).printed ≠ [] ∧
    (Gemini.streaming_main ci2).taskOutputs = [] ∧
    (Gemini.streaming_main ci2).uncaught = some e2 := by
  subst h1 h2
  refine ⟨rfl, rfl, rfl, rfl, rfl, ?_, rfl, rfl⟩
  simp [Gemini.GeminiProcessor_init]

/-- Witness for C10 with a concrete construction failure on both scripts. -/
theorem missing_credential_fails_at_startup_witness :
    ((Except.error "no key" : Except String Unit) =
        Except.error "no key") ∧
    (Criticize.criticize_process (Except.error "no key")
        Criticize.envNoDocs).mainRan = false ∧
    (Criticize.criticize_process (Except.error "no key")
        Criticize.envNoDocs).apiCalled = false ∧
    (Criticize.criticize_process (Except.error "no key")
        Criticize.envNoDocs).exitCode = 1 ∧
    (Criticize.criticize_process (Except.error "no key")
        Criticize.envNoDocs).uncaught = some "no key" ∧
    (Gemini.GeminiProcessor_init "gemini-1.5-flash"
        (Except.error "no key")).result = Except.error "no key" ∧
    (Gemini.GeminiProcessor_init "gemini-1.5-flash"
        (Except.error "no key")).printed ≠ [] ∧
    (Gemini.streaming_main (Except.error "no key")).taskOutputs = [] ∧
    (Gemini.streaming_main (Except.error "no key")).uncaught =
      some "no key" :=
  ⟨rfl, missing_credential_fails_at_startup (Except.error "no key")
    (Except.error "no key") Criticize.envNoDocs "no key" "no key" rfl rfl⟩
